import Mathlib

/-!
Shallow embedding of the KLlama orchestration layer (KLlama.h / KLlama.cpp).

Modelling conventions:
* C++ `float` values are modelled as rationals (`ℚ`); the float literals
  `0.0f`, `1.0f`, `2.0f`, `0.01f` are modelled as the exact rationals
  `0`, `1`, `2`, `1/100`.
* C++ `int32_t` / `int` are modelled as `ℤ` (no arithmetic in the embedded
  code can overflow 32 bits on the embedded paths).
* External collaborators (filesystem, llama.cpp inference engine, mtmd vision
  engine) are modelled as explicit environments of oracles; the session object
  (`KLlama`) is modelled as an explicit state record threaded through each
  operation.
* The cancellation token is modelled as an optional schedule `ℕ → Bool`
  giving the value observed at each successive poll site.
-/

namespace KLlamaModel

/-- Error codes of `enum class KLlamaError` (KLlama.h). -/
inductive KLlamaError where
  | None
  | ModelNotFound
  | ModelLoadFailed
  | ModelInvalid
  | MmprojNotFound
  | MmprojLoadFailed
  | MmprojInvalid
  | ContextInitFailed
  | InsufficientMemory
  | TokenizationFailed
  | EvaluationFailed
  | SamplingFailed
  | ImageProcessingFailed
  | InvalidParameters
  | NotInitialized
  | AlreadyInitialized
  | OperationCancelled
  | UnknownError
  deriving DecidableEq, Repr

/-- `KLlamaResult<void>`: error tag plus human-readable message. -/
structure KLlamaResultV where
  error : KLlamaError := KLlamaError.None
  errorMessage : String := ""
  deriving DecidableEq, Repr

/-- `KLlamaResult<T>::isError()`. -/
def KLlamaResultV.isError (r : KLlamaResultV) : Bool :=
  decide (r.error ≠ KLlamaError.None)

def okV : KLlamaResultV := {}

/-- `enum class GenerationState` (KLlama.h). -/
inductive GenerationState where
  | Idle
  | Initializing
  | TokenizingPrompt
  | ProcessingImages
  | Generating
  | Finished
  | Cancelled
  | Error
  deriving DecidableEq, Repr

/-- The rational 7/10, written in normal form so the kernel can evaluate it. -/
def ratSevenTenths : ℚ := ⟨7, 10, by decide, by decide⟩

/-- The rational 9/10 in normal form. -/
def ratNineTenths : ℚ := ⟨9, 10, by decide, by decide⟩

/-- The rational 1/20 in normal form. -/
def ratOneTwentieth : ℚ := ⟨1, 20, by decide, by decide⟩

/-- The rational 11/10 in normal form. -/
def ratElevenTenths : ℚ := ⟨11, 10, by decide, by decide⟩

/-- The rational 1/100 in normal form (the `0.01f` low-temperature cutoff). -/
def ratOneHundredth : ℚ := ⟨1, 100, by decide, by decide⟩

/-- `struct SamplingParams` (KLlama.h) with its default member initializers
(0.7f, 0.9f, 40, 0.05f, 1.0f, 1.1f, 64, 0.0f, 0.0f, -1). -/
structure SamplingParams where
  temperature : ℚ := ratSevenTenths
  topP : ℚ := ratNineTenths
  topK : ℤ := 40
  minP : ℚ := ratOneTwentieth
  typicalP : ℚ := 1
  repeatPenalty : ℚ := ratElevenTenths
  repeatLastN : ℤ := 64
  frequencyPenalty : ℚ := 0
  presencePenalty : ℚ := 0
  nPredict : ℤ := -1
  deriving DecidableEq, Repr

/-- `SamplingParams::validate()` (KLlama.cpp lines 66-86), translated
condition by condition from the source. -/
def SamplingParams.validate (p : SamplingParams) : KLlamaResultV :=
  if p.temperature < 0 ∨ p.temperature > 2 then
    ⟨KLlamaError.InvalidParameters, "Temperature must be between 0.0 and 2.0"⟩
  else if p.topP < 0 ∨ p.topP > 1 then
    ⟨KLlamaError.InvalidParameters, "top_p must be between 0.0 and 1.0"⟩
  else if p.topK < 0 then
    ⟨KLlamaError.InvalidParameters, "top_k must be non-negative"⟩
  else if p.minP < 0 ∨ p.minP > 1 then
    ⟨KLlamaError.InvalidParameters, "min_p must be between 0.0 and 1.0"⟩
  else if p.repeatPenalty < 0 then
    ⟨KLlamaError.InvalidParameters, "repeat_penalty must be non-negative"⟩
  else if p.repeatLastN < 0 then
    ⟨KLlamaError.InvalidParameters, "repeat_last_n must be non-negative"⟩
  else okV

/-- All six validated fields are inside their spec ranges. -/
def SamplingParams.inRange (p : SamplingParams) : Prop :=
  0 ≤ p.temperature ∧ p.temperature ≤ 2 ∧
  0 ≤ p.topP ∧ p.topP ≤ 1 ∧
  0 ≤ p.topK ∧
  0 ≤ p.minP ∧ p.minP ≤ 1 ∧
  0 ≤ p.repeatPenalty ∧
  0 ≤ p.repeatLastN

instance (p : SamplingParams) : Decidable p.inRange := by
  unfold SamplingParams.inRange; infer_instance

/-- Validation outcome as described by the spec: success when every field is
in range, otherwise `InvalidParameters` reporting the first offending field in
declaration order (temperature, topP, topK, minP, repeatPenalty, repeatLastN).
This definition follows the spec's words; the theorem below compares it with
the source-derived `SamplingParams.validate`. -/
def samplingValidateSpec (p : SamplingParams) : KLlamaResultV :=
  if ¬ (0 ≤ p.temperature ∧ p.temperature ≤ 2) then
    ⟨KLlamaError.InvalidParameters, "Temperature must be between 0.0 and 2.0"⟩
  else if ¬ (0 ≤ p.topP ∧ p.topP ≤ 1) then
    ⟨KLlamaError.InvalidParameters, "top_p must be between 0.0 and 1.0"⟩
  else if ¬ (0 ≤ p.topK) then
    ⟨KLlamaError.InvalidParameters, "top_k must be non-negative"⟩
  else if ¬ (0 ≤ p.minP ∧ p.minP ≤ 1) then
    ⟨KLlamaError.InvalidParameters, "min_p must be between 0.0 and 1.0"⟩
  else if ¬ (0 ≤ p.repeatPenalty) then
    ⟨KLlamaError.InvalidParameters, "repeat_penalty must be non-negative"⟩
  else if ¬ (0 ≤ p.repeatLastN) then
    ⟨KLlamaError.InvalidParameters, "repeat_last_n must be non-negative"⟩
  else okV

lemma range_cond_iff {a lo hi : ℚ} : (a < lo ∨ a > hi) ↔ ¬ (lo ≤ a ∧ a ≤ hi) := by
  rw [not_and_or, not_le, not_le]

lemma lower_cond_iffQ {a : ℚ} : (a < 0) ↔ ¬ (0 ≤ a) := by
  rw [not_le]

lemma lower_cond_iffZ {a : ℤ} : (a < 0) ↔ ¬ (0 ≤ a) := by
  rw [not_le]

/-- Claim C4: `SamplingParams.validate` succeeds exactly on the spec ranges
(temperature in [0,2], topP in [0,1], topK ≥ 0, minP in [0,1],
repeatPenalty ≥ 0, repeatLastN ≥ 0), and on any out-of-range value it returns
`InvalidParameters` reporting the first offending field in declaration order,
i.e. the source validator coincides with the spec-side validator. -/
theorem validate_first_offending_field (p : SamplingParams) :
    p.validate = samplingValidateSpec p ∧ (p.validate.error = KLlamaError.None ↔ p.inRange) := by
  have hmain : p.validate = samplingValidateSpec p := by
    unfold SamplingParams.validate samplingValidateSpec
    simp only [range_cond_iff]
    simp only [lower_cond_iffQ, lower_cond_iffZ]
  refine ⟨hmain, ?_⟩
  rw [hmain]
  unfold samplingValidateSpec SamplingParams.inRange okV
  split_ifs with h1 h2 h3 h4 h5 h6 <;> simp <;> first | tauto | omega

/-! ## Sampler chain (`KLlama::configureSampler`, KLlama.cpp lines 429-490) -/

/-- `LLAMA_DEFAULT_SEED` from llama.h. -/
def llamaDefaultSeed : ℕ := 0xFFFFFFFF

/-- One stage added to the `llama_sampler` chain, with the parameters the
source passes to the corresponding `llama_sampler_init_*` constructor. -/
inductive Stage where
  | penalties (lastN : ℤ) (repeatPen freqPen presPen : ℚ)
  | greedy
  | topK (k : ℤ)
  | typical (p : ℚ) (minKeep : ℕ)
  | topP (p : ℚ) (minKeep : ℕ)
  | minP (p : ℚ) (minKeep : ℕ)
  | temp (t : ℚ)
  | dist (seed : ℕ)
  deriving DecidableEq, Repr

/-- The chain built by `KLlama::configureSampler` after validation and chain
creation succeed (lines 447-489), translated statement by statement: each
`llama_sampler_chain_add` appends one stage to the chain. -/
def buildChain (sp : SamplingParams) : List Stage :=
  let chain : List Stage := []
  let chain :=
    if sp.repeatPenalty ≠ 1 then
      chain ++ [Stage.penalties sp.repeatLastN sp.repeatPenalty sp.frequencyPenalty sp.presencePenalty]
    else chain
  if sp.temperature ≤ ratOneHundredth then chain ++ [Stage.greedy]
  else
    let chain := if sp.topK > 0 then chain ++ [Stage.topK sp.topK] else chain
    let chain :=
      if sp.typicalP < 1 ∧ sp.typicalP > 0 then chain ++ [Stage.typical sp.typicalP 1] else chain
    let chain := if sp.topP < 1 ∧ sp.topP > 0 then chain ++ [Stage.topP sp.topP 1] else chain
    let chain := if sp.minP > 0 then chain ++ [Stage.minP sp.minP 1] else chain
    chain ++ [Stage.temp sp.temperature, Stage.dist llamaDefaultSeed]

/-- The pipeline as the spec describes it: a repetition-penalty stage first
iff repeatPenalty ≠ 1.0; then a single greedy stage if temperature ≤ 0.01;
otherwise top-k (iff topK > 0), typical (iff 0 < typicalP < 1), top-p
(iff 0 < topP < 1), min-p (iff minP > 0), temperature scaling, and a final
stochastic draw, in that order. This definition follows the spec's words and
is compared against the source-derived `buildChain`. -/
def specSamplerChain (sp : SamplingParams) : List Stage :=
  (if sp.repeatPenalty ≠ 1 then
      [Stage.penalties sp.repeatLastN sp.repeatPenalty sp.frequencyPenalty sp.presencePenalty]
    else []) ++
  if sp.temperature ≤ ratOneHundredth then [Stage.greedy]
  else
    (if sp.topK > 0 then [Stage.topK sp.topK] else []) ++
    (if 0 < sp.typicalP ∧ sp.typicalP < 1 then [Stage.typical sp.typicalP 1] else []) ++
    (if 0 < sp.topP ∧ sp.topP < 1 then [Stage.topP sp.topP 1] else []) ++
    (if 0 < sp.minP then [Stage.minP sp.minP 1] else []) ++
    [Stage.temp sp.temperature, Stage.dist llamaDefaultSeed]

lemma buildChain_eq_spec (sp : SamplingParams) : buildChain sp = specSamplerChain sp := by
  unfold buildChain specSamplerChain
  have htyp : (sp.typicalP < 1 ∧ sp.typicalP > 0) ↔ (0 < sp.typicalP ∧ sp.typicalP < 1) :=
    and_comm
  have htp : (sp.topP < 1 ∧ sp.topP > 0) ↔ (0 < sp.topP ∧ sp.topP < 1) := and_comm
  simp only [gt_iff_lt, htyp, htp]
  split_ifs <;> simp

/-! ## Session state -/

/-- `struct SessionParams` (KLlama.h) with its default member initializers. -/
structure SessionParams where
  modelPath : String := ""
  mmprojPath : String := ""
  contextSize : ℤ := 16000
  batch : ℤ := 4096
  gpuLayers : ℤ := 0
  mmprojUseGpu : Bool := false
  threads : ℤ := 6
  verbosity : ℤ := 1
  sampling : SamplingParams := {}
  deriving DecidableEq, Repr

/-- `struct GenerationStats` (time-derived fields `tokensPerSecond` and
`timeElapsed` read the wall clock and are outside the embedding). -/
structure GenerationStats where
  tokensGenerated : ℤ := 0
  state : GenerationState := GenerationState.Idle
  sampling : SamplingParams := {}
  deriving DecidableEq, Repr

/-- `GenerationStats` after `currentStats = {};` (value initialization). -/
def zeroStats : GenerationStats := {}

/-- The `KLlama` object: `initialized` flag, stored `params`,
`generationState`, and the engine handles modelled as presence flags
(`batch.token`, `sampler`, `llamaContext`, `model`, `visionContext`) plus a
flag recording whether `llama_backend_init` is active. -/
structure KLlamaState where
  initialized : Bool := false
  params : SessionParams := {}
  generationState : GenerationState := GenerationState.Idle
  backendInit : Bool := false
  batchTok : Bool := false
  samplerSt : Option (List Stage) := none
  context : Bool := false
  model : Bool := false
  vision : Bool := false
  stats : GenerationStats := {}
  deriving DecidableEq, Repr

/-- A freshly constructed `KLlama` object (all member initializers). -/
def initialState : KLlamaState := {}

/-- `KLlama::setGenerationState` (KLlama.cpp lines 857-860). -/
def setGenerationState (s : KLlamaState) (st : GenerationState) : KLlamaState :=
  { s with generationState := st, stats := { s.stats with state := st } }

/-- `KLlama::configureSampler` (KLlama.cpp lines 429-490): validate, free any
existing sampler, create the chain (`chainInitOk` models whether
`llama_sampler_chain_init` returns non-null), then add the stages. -/
def configureSampler (chainInitOk : Bool) (s : KLlamaState) (sp : SamplingParams) :
    KLlamaResultV × KLlamaState :=
  let v := sp.validate
  if v.isError then (v, s)
  else
    let s := { s with samplerSt := none }
    if ¬ chainInitOk then (⟨KLlamaError.SamplingFailed, "Failed to create sampler chain"⟩, s)
    else (okV, { s with samplerSt := some (buildChain sp) })

/-- Claim C2: for every `SamplingParams` value passing validation,
`configureSampler` (with a successfully created chain) succeeds and installs
exactly the pipeline the spec describes: repetition penalty first iff
repeatPenalty ≠ 1.0; then a single greedy stage if temperature ≤ 0.01;
otherwise top-k iff topK > 0, typical iff 0 < typicalP < 1, top-p iff
0 < topP < 1, min-p iff minP > 0, temperature scaling, and a final
stochastic draw, in that order. -/
theorem configureSampler_builds_spec_chain (s : KLlamaState) (sp : SamplingParams)
    (hv : sp.validate.error = KLlamaError.None) :
    (configureSampler true s sp).1 = okV ∧
    (configureSampler true s sp).2 = { s with samplerSt := some (specSamplerChain sp) } := by
  unfold configureSampler
  have hne : sp.validate.isError = false := by
    unfold KLlamaResultV.isError
    simp [hv]
  simp [hne, buildChain_eq_spec]

/-- Claim C2 witness: the default sampling parameters validate and build the
spec pipeline. -/
theorem configureSampler_builds_spec_chain_witness :
    ({} : SamplingParams).validate.error = KLlamaError.None ∧
    (configureSampler true initialState {}).1 = okV ∧
    (configureSampler true initialState {}).2 =
      { initialState with samplerSt := some (specSamplerChain {}) } :=
  ⟨by decide, configureSampler_builds_spec_chain initialState {} (by decide)⟩

/-- Stage-class test: is this stage a typical-sampling truncation stage? -/
def Stage.isTypicalStage : Stage → Bool
  | Stage.typical _ _ => true
  | _ => false

/-- Claim C10: `SamplingParams.validate` never examines `typicalP` — for
EVERY pair of values differing only in `typicalP` (no restriction on the
other fields or on the new value), `validate` returns the same result;
moreover a value whose other fields are in range validates successfully no
matter the `typicalP` value, and when `typicalP` is outside the open
interval (0,1) the built chain simply contains no typical-sampling stage. -/
theorem validate_ignores_typicalP (p : SamplingParams) (x : ℚ) :
    ({ p with typicalP := x } : SamplingParams).validate = p.validate ∧
    (p.inRange → ({ p with typicalP := x } : SamplingParams).validate.error = KLlamaError.None) ∧
    (¬ (0 < x ∧ x < 1) →
      ∀ st ∈ buildChain { p with typicalP := x }, st.isTypicalStage = false) := by
  refine ⟨?_, ?_, ?_⟩
  · unfold SamplingParams.validate
    rfl
  · intro hothers
    apply (validate_first_offending_field { p with typicalP := x }).2.mpr
    unfold SamplingParams.inRange at hothers ⊢
    exact hothers
  · intro hx
    rw [buildChain_eq_spec]
    unfold specSamplerChain
    split_ifs <;> simp_all [Stage.isTypicalStage]

/-- Claim C10 witness: default parameters with `typicalP = -5` still validate
successfully and their chain has no typical-sampling stage. -/
theorem validate_ignores_typicalP_witness :
    (({} : SamplingParams).inRange ∧ ¬ ((0:ℚ) < -5 ∧ (-5:ℚ) < 1)) ∧
    (({ typicalP := -5 } : SamplingParams).validate = ({} : SamplingParams).validate ∧
     ({ typicalP := -5 } : SamplingParams).validate.error = KLlamaError.None ∧
     ∀ st ∈ buildChain { typicalP := -5 }, st.isTypicalStage = false) :=
  ⟨⟨by decide, by decide⟩,
    ⟨(validate_ignores_typicalP {} (-5)).1,
     (validate_ignores_typicalP {} (-5)).2.1 (by decide),
     (validate_ignores_typicalP {} (-5)).2.2 (by decide)⟩⟩

/-! ## Image validation (`KLlama::validateImageData`, KLlama.cpp lines 394-426) -/

/-- `struct ImageData`: the raw encoded bytes (each in 0..255). -/
abbrev ImageData := List ℕ

/-- `KLlamaResult<std::vector<uint8_t>>`: bytes payload or error; on an
error construction the payload is value-initialized to the empty vector. -/
structure KLlamaResultBytes where
  value : List ℕ := []
  error : KLlamaError := KLlamaError.None
  errorMessage : String := ""
  deriving DecidableEq, Repr

/-- `KLlama::validateImageData`, translated check by check.  The element
accesses `data[0]`..`data[3]` in the source are guarded by the size tests and
are modelled with `List.getD`. -/
def validateImageData (data : List ℕ) : KLlamaResultBytes :=
  if data.isEmpty then
    { error := KLlamaError.ImageProcessingFailed, errorMessage := "Image data is empty" }
  else if data.length < 8 then
    { error := KLlamaError.ImageProcessingFailed, errorMessage := "Image data too small" }
  else
    let validFormat :=
      if 8 ≤ data.length ∧ data.getD 0 0 = 0x89 ∧ data.getD 1 0 = 0x50 ∧
          data.getD 2 0 = 0x4E ∧ data.getD 3 0 = 0x47 then true
      else if 2 ≤ data.length ∧ data.getD 0 0 = 0xFF ∧ data.getD 1 0 = 0xD8 then true
      else if 2 ≤ data.length ∧ data.getD 0 0 = 0x42 ∧ data.getD 1 0 = 0x4D then true
      else false
    if ¬ validFormat then
      { error := KLlamaError.ImageProcessingFailed, errorMessage := "Unsupported image format" }
    else { value := data }

/-- The buffer starts with the 4-byte PNG signature. -/
def pngSig (data : List ℕ) : Prop :=
  data.getD 0 0 = 0x89 ∧ data.getD 1 0 = 0x50 ∧ data.getD 2 0 = 0x4E ∧ data.getD 3 0 = 0x47

/-- The buffer starts with the 2-byte JPEG signature. -/
def jpegSig (data : List ℕ) : Prop := data.getD 0 0 = 0xFF ∧ data.getD 1 0 = 0xD8

/-- The buffer starts with the 2-byte BMP signature. -/
def bmpSig (data : List ℕ) : Prop := data.getD 0 0 = 0x42 ∧ data.getD 1 0 = 0x4D

instance (data : List ℕ) : Decidable (pngSig data) := by
  unfold pngSig; infer_instance

instance (data : List ℕ) : Decidable (jpegSig data) := by
  unfold jpegSig; infer_instance

instance (data : List ℕ) : Decidable (bmpSig data) := by
  unfold bmpSig; infer_instance

/-- Claim C8: `validateImageData` succeeds, returning the input bytes,
exactly when the buffer has at least 8 bytes and begins with the PNG, JPEG or
BMP signature; every rejected buffer (empty, under 8 bytes, or any other
leading signature) is rejected with `ImageProcessingFailed`. -/
theorem validateImageData_signature_check (data : List ℕ) :
    ((validateImageData data).error = KLlamaError.None ↔
      (8 ≤ data.length ∧ (pngSig data ∨ jpegSig data ∨ bmpSig data))) ∧
    ((validateImageData data).error = KLlamaError.None ∨
      (validateImageData data).error = KLlamaError.ImageProcessingFailed) ∧
    (validateImageData data).value =
      (if 8 ≤ data.length ∧ (pngSig data ∨ jpegSig data ∨ bmpSig data) then data else []) := by
  unfold validateImageData pngSig jpegSig bmpSig
  have hlen : data.isEmpty = true → data.length = 0 := by
    intro h
    simp [List.isEmpty_iff] at h
    simp [h]
  by_cases hempty : data.isEmpty
  · have h0 := hlen hempty
    simp [hempty, h0]
  · by_cases hsmall : data.length < 8
    · have h8 : ¬ (8 ≤ data.length) := by omega
      simp [hempty, hsmall, h8]
    · have h8 : 8 ≤ data.length := by omega
      have h2 : 2 ≤ data.length := by omega
      simp only [hempty, hsmall, h8, h2, if_false, if_true, true_and,
        Bool.if_false_right, Bool.if_true_left]
      split_ifs <;> simp_all <;> tauto

/-! ## Teardown (`KLlama::freeMemory`, KLlama.cpp lines 126-152) -/

/-- `KLlama::freeMemory`, translated guard by guard: free the batch, the
sampler, the context and the model when present; free the backend only when
the `initialized` flag is set (and clear the flag); always reset the vision
handle and set the generation state to `Idle`.  Never fails. -/
def freeMemory (s : KLlamaState) : KLlamaResultV × KLlamaState :=
  let s := if s.batchTok then { s with batchTok := false } else s
  let s := if s.samplerSt.isSome then { s with samplerSt := none } else s
  let s := if s.context then { s with context := false } else s
  let s := if s.model then { s with model := false } else s
  let s := if s.initialized then { s with backendInit := false, initialized := false } else s
  let s := { s with vision := false }
  (okV, setGenerationState s GenerationState.Idle)

lemma freeMemory_eq (s : KLlamaState) :
    freeMemory s =
      (okV,
        { s with
          batchTok := false, samplerSt := none, context := false, model := false,
          backendInit := s.backendInit && !s.initialized, initialized := false,
          vision := false, generationState := GenerationState.Idle,
          stats := { s.stats with state := GenerationState.Idle } }) := by
  obtain ⟨init, prm, gs, be, bt, sam, ctx, mdl, vis, st⟩ := s
  unfold freeMemory setGenerationState
  cases init <;> cases bt <;> cases ctx <;> cases mdl <;> cases sam <;> simp

/-- Claim C9: teardown is idempotent and never fails — on any session state
both of two successive `freeMemory` calls return success, both leave the
session uninitialized with generation state `Idle`, and the second call is a
no-op (`freeMemory` composed with itself equals `freeMemory`). -/
theorem freeMemory_idempotent (s : KLlamaState) :
    (freeMemory s).1 = okV ∧
    (freeMemory s).2.initialized = false ∧
    (freeMemory s).2.generationState = GenerationState.Idle ∧
    freeMemory (freeMemory s).2 = freeMemory s := by
  rw [freeMemory_eq]
  refine ⟨rfl, rfl, rfl, ?_⟩
  rw [freeMemory_eq]
  simp

/-! ## Initialization (`KLlama::initialize`, KLlama.cpp lines 155-278) -/

/-- One observation of the cancellation token: `cancel` is `none` when no
token was passed (`cancellationToken == nullptr`), otherwise a schedule
giving the flag value read at the n-th poll site. -/
def checkCancel (cancel : Option (ℕ → Bool)) (n : ℕ) : Bool :=
  match cancel with
  | none => false
  | some f => f n

/-- External collaborators used by initialization: the filesystem and the
outcome of the engine calls that can fail. -/
structure InitEnv where
  fileExists : String → Bool
  modelLoadOk : Bool
  contextInitOk : Bool
  visionInitOk : Bool

/-- `KLlama::checkFileExists` (KLlama.cpp lines 51-56). -/
def checkFileExists (fileExists : String → Bool) (path : String) : KLlamaResultV :=
  if ¬ fileExists path then ⟨KLlamaError.ModelNotFound, "File not found: " ++ path⟩
  else okV

/-- `SessionParams::validate()` (KLlama.cpp lines 88-117). -/
def SessionParams.validate (p : SessionParams) (fileExists : String → Bool) : KLlamaResultV :=
  if p.modelPath = "" then ⟨KLlamaError.InvalidParameters, "Model path cannot be empty"⟩
  else
    let fileCheck := checkFileExists fileExists p.modelPath
    if fileCheck.isError then fileCheck
    else if p.mmprojPath ≠ "" ∧ (checkFileExists fileExists p.mmprojPath).isError then
      ⟨KLlamaError.MmprojNotFound, "Multimodal projector file not found: " ++ p.mmprojPath⟩
    else if p.contextSize ≤ 0 then ⟨KLlamaError.InvalidParameters, "Context size must be positive"⟩
    else if p.batch ≤ 0 then ⟨KLlamaError.InvalidParameters, "Batch size must be positive"⟩
    else if p.threads ≤ 0 then ⟨KLlamaError.InvalidParameters, "Thread count must be positive"⟩
    else p.sampling.validate

/-- `KLlama::initializeModel` (KLlama.cpp lines 210-248).  Poll site 1 is the
cancellation check after the model load. -/
def initializeModel (env : InitEnv) (cancel : Option (ℕ → Bool)) (s : KLlamaState) :
    KLlamaResultV × KLlamaState :=
  if ¬ env.modelLoadOk then
    (⟨KLlamaError.ModelLoadFailed, "Failed to load model from: " ++ s.params.modelPath⟩, s)
  else
    let s := { s with model := true }
    if checkCancel cancel 1 then (⟨KLlamaError.OperationCancelled, ""⟩, s)
    else if ¬ env.contextInitOk then
      (⟨KLlamaError.ContextInitFailed, "Failed to initialize llama context"⟩, s)
    else (okV, { s with context := true })

/-- `KLlama::initializeVision` (KLlama.cpp lines 250-278).  Poll site 2 is
the cancellation check after the vision model load. -/
def initializeVision (env : InitEnv) (cancel : Option (ℕ → Bool)) (s : KLlamaState) :
    KLlamaResultV × KLlamaState :=
  if ¬ env.visionInitOk then
    (⟨KLlamaError.MmprojLoadFailed, "Failed to load vision model from: " ++ s.params.mmprojPath⟩, s)
  else
    let s := { s with vision := true }
    if checkCancel cancel 2 then (⟨KLlamaError.OperationCancelled, ""⟩, s)
    else (okV, s)

/-- `KLlama::initialize` (KLlama.cpp lines 155-208), named `initializeSession` here because `initialize` is a Lean keyword.  Poll site 0 is the
cancellation check before `llama_backend_init`; a failing sub-step triggers
`freeMemory()` before returning. -/
def initializeSession (env : InitEnv) (sp : SessionParams) (cancel : Option (ℕ → Bool))
    (s : KLlamaState) : KLlamaResultV × KLlamaState :=
  if s.initialized then (⟨KLlamaError.AlreadyInitialized, ""⟩, s)
  else
    let v := sp.validate env.fileExists
    if v.isError then (v, s)
    else
      let s := { s with params := sp }
      let s := setGenerationState s GenerationState.Initializing
      if checkCancel cancel 0 then
        (⟨KLlamaError.OperationCancelled, ""⟩, setGenerationState s GenerationState.Cancelled)
      else
        let s := { s with backendInit := true, batchTok := true }
        let mr := initializeModel env cancel s
        if mr.1.isError then (mr.1, (freeMemory mr.2).2)
        else
          let s := mr.2
          if sp.mmprojPath ≠ "" then
            let vr := initializeVision env cancel s
            if vr.1.isError then (vr.1, (freeMemory vr.2).2)
            else
              (okV, setGenerationState { vr.2 with initialized := true } GenerationState.Idle)
          else
            (okV, setGenerationState { s with initialized := true } GenerationState.Idle)

/-- Claim C5: on a fresh session, `initialize` with a non-empty model path
naming a nonexistent file returns `ModelNotFound`, leaves the session state
completely untouched (no engine resource acquired or mutated, still
uninitialized), and a subsequent teardown is a no-op. -/
theorem initialize_missing_model_no_resources (env : InitEnv) (sp : SessionParams)
    (cancel : Option (ℕ → Bool)) (hne : sp.modelPath ≠ "")
    (hex : env.fileExists sp.modelPath = false) :
    (initializeSession env sp cancel initialState).1.error = KLlamaError.ModelNotFound ∧
    (initializeSession env sp cancel initialState).2 = initialState ∧
    freeMemory initialState = (okV, initialState) := by
  have hval : sp.validate env.fileExists =
      ⟨KLlamaError.ModelNotFound, "File not found: " ++ sp.modelPath⟩ := by
    unfold SessionParams.validate checkFileExists
    simp [hne, hex, KLlamaResultV.isError]
  have hislead : (⟨KLlamaError.ModelNotFound,
      "File not found: " ++ sp.modelPath⟩ : KLlamaResultV).isError = true := by
    unfold KLlamaResultV.isError
    simp
  refine ⟨?_, ?_, ?_⟩
  · unfold initializeSession
    simp [initialState, hval, hislead]
  · unfold initializeSession
    simp [initialState, hval, hislead]
  · rw [freeMemory_eq]
    simp [initialState]

/-- Claim C5 witness: an always-missing filesystem and a concrete path. -/
theorem initialize_missing_model_no_resources_witness :
    (("missing.gguf" : String) ≠ "" ∧
      (InitEnv.mk (fun _ => false) true true true).fileExists "missing.gguf" = false) ∧
    ((initializeSession (InitEnv.mk (fun _ => false) true true true) { modelPath := "missing.gguf" }
        none initialState).1.error = KLlamaError.ModelNotFound ∧
     (initializeSession (InitEnv.mk (fun _ => false) true true true) { modelPath := "missing.gguf" }
        none initialState).2 = initialState ∧
     freeMemory initialState = (okV, initialState)) :=
  ⟨⟨by decide, rfl⟩,
    initialize_missing_model_no_resources (InitEnv.mk (fun _ => false) true true true)
      { modelPath := "missing.gguf" } none (by decide) rfl⟩

/-- A filesystem where every path exists and every engine call succeeds. -/
def allOkInitEnv : InitEnv := InitEnv.mk (fun _ => true) true true true

/-- A cancellation schedule that reads `false` at poll 0 and `true` from
poll 1 on (the token is set while the model is loading). -/
def cancelAfterFirstPoll : Option (ℕ → Bool) := some (fun n => decide (1 ≤ n))

/-- Claim C3 counterexample: a concrete `initialize` call whose cancellation
token is observed set at the post-model-load poll returns
`OperationCancelled`, but the session does NOT end in the `Cancelled` state
(it ends `Idle`) and the model resource is NOT left in place (it has been
released by the automatic unwind), contradicting the claim. -/
theorem initialize_cancel_post_step_counterexample :
    (initializeSession allOkInitEnv { modelPath := "model.gguf" } cancelAfterFirstPoll
        initialState).1.error = KLlamaError.OperationCancelled ∧
    ¬ ((initializeSession allOkInitEnv { modelPath := "model.gguf" } cancelAfterFirstPoll
        initialState).2.generationState = GenerationState.Cancelled) ∧
    (initializeSession allOkInitEnv { modelPath := "model.gguf" } cancelAfterFirstPoll
        initialState).2.model = false ∧
    (initializeSession allOkInitEnv { modelPath := "model.gguf" } cancelAfterFirstPoll
        initialState).2.batchTok = false := by
  refine ⟨by decide, by decide, by decide, by decide⟩

/-- Claim C3 (amended): on a fresh session with parameters that validate,
cancellation observed at the pre-backend poll returns `OperationCancelled`
with the session in the `Cancelled` state and no engine resource acquired;
cancellation observed at the post-model-load poll (model load succeeded)
returns `OperationCancelled` but the resources acquired in the call are
released by the automatic unwind — the session ends `Idle` and uninitialized
with batch, model and context freed, and only the backend (whose release is
keyed to the `initialized` flag) still in place; the post-vision-load poll
behaves like the post-model-load poll (the vision handle is also freed). -/
theorem initialize_cancellation_amended (env : InitEnv) (sp : SessionParams)
    (c : Option (ℕ → Bool)) (hv : sp.validate env.fileExists = okV) :
    (checkCancel c 0 = true →
      (initializeSession env sp c initialState).1.error = KLlamaError.OperationCancelled ∧
      (initializeSession env sp c initialState).2.generationState = GenerationState.Cancelled ∧
      (initializeSession env sp c initialState).2.backendInit = false ∧
      (initializeSession env sp c initialState).2.batchTok = false ∧
      (initializeSession env sp c initialState).2.model = false ∧
      (initializeSession env sp c initialState).2.context = false) ∧
    (checkCancel c 0 = false → checkCancel c 1 = true → env.modelLoadOk = true →
      (initializeSession env sp c initialState).1.error = KLlamaError.OperationCancelled ∧
      (initializeSession env sp c initialState).2.generationState = GenerationState.Idle ∧
      (initializeSession env sp c initialState).2.initialized = false ∧
      (initializeSession env sp c initialState).2.model = false ∧
      (initializeSession env sp c initialState).2.batchTok = false ∧
      (initializeSession env sp c initialState).2.context = false ∧
      (initializeSession env sp c initialState).2.backendInit = true) ∧
    (checkCancel c 0 = false → checkCancel c 1 = false → checkCancel c 2 = true →
      env.modelLoadOk = true → env.contextInitOk = true → env.visionInitOk = true →
      sp.mmprojPath ≠ "" →
      (initializeSession env sp c initialState).1.error = KLlamaError.OperationCancelled ∧
      (initializeSession env sp c initialState).2.generationState = GenerationState.Idle ∧
      (initializeSession env sp c initialState).2.initialized = false ∧
      (initializeSession env sp c initialState).2.model = false ∧
      (initializeSession env sp c initialState).2.vision = false ∧
      (initializeSession env sp c initialState).2.backendInit = true) := by
  have hok : (okV).isError = false := rfl
  refine ⟨?_, ?_, ?_⟩
  · intro h0
    unfold initializeSession
    simp [initialState, hv, hok, h0, setGenerationState]
  · intro h0 h1 hm
    unfold initializeSession initializeModel
    simp only [initialState, hv, hok, h0, h1, hm]
    simp [freeMemory_eq, KLlamaResultV.isError, setGenerationState, okV]
  · intro h0 h1 h2 hm hc hvis hmm
    unfold initializeSession initializeModel initializeVision
    simp only [initialState, hv, hok, h0, h1, h2, hm, hc, hvis, hmm]
    simp [freeMemory_eq, KLlamaResultV.isError, setGenerationState, okV, hmm]

/-- Claim C3 (amended) witness: the post-model-load scenario evaluated at a
concrete environment, parameters and schedule. -/
theorem initialize_cancellation_amended_witness :
    (({ modelPath := "model.gguf" } : SessionParams).validate allOkInitEnv.fileExists = okV ∧
      checkCancel cancelAfterFirstPoll 0 = false ∧
      checkCancel cancelAfterFirstPoll 1 = true ∧ allOkInitEnv.modelLoadOk = true) ∧
    ((initializeSession allOkInitEnv { modelPath := "model.gguf" } cancelAfterFirstPoll
        initialState).1.error = KLlamaError.OperationCancelled ∧
     (initializeSession allOkInitEnv { modelPath := "model.gguf" } cancelAfterFirstPoll
        initialState).2.generationState = GenerationState.Idle ∧
     (initializeSession allOkInitEnv { modelPath := "model.gguf" } cancelAfterFirstPoll
        initialState).2.initialized = false ∧
     (initializeSession allOkInitEnv { modelPath := "model.gguf" } cancelAfterFirstPoll
        initialState).2.model = false ∧
     (initializeSession allOkInitEnv { modelPath := "model.gguf" } cancelAfterFirstPoll
        initialState).2.batchTok = false ∧
     (initializeSession allOkInitEnv { modelPath := "model.gguf" } cancelAfterFirstPoll
        initialState).2.context = false ∧
     (initializeSession allOkInitEnv { modelPath := "model.gguf" } cancelAfterFirstPoll
        initialState).2.backendInit = true) :=
  ⟨⟨by decide, by decide, by decide, rfl⟩,
    (initialize_cancellation_amended allOkInitEnv { modelPath := "model.gguf" }
        cancelAfterFirstPoll (by decide)).2.1 (by decide) (by decide) rfl⟩

/-! ## Generation (`KLlama::generateResponseInternal`, KLlama.cpp lines 512-833) -/

/-- `enum class MessageRole` (KLlama.h). -/
inductive MessageRole where
  | User
  | Assistant
  | System
  deriving DecidableEq, Repr

/-- `struct MultimodalMessage` (KLlama.h). -/
structure MultimodalMessage where
  role : MessageRole
  content : String
  images : List ImageData := []
  deriving DecidableEq, Repr

/-- `KLlama::extractAllImages` (KLlama.cpp lines 836-846): concatenate the
image lists of all messages in conversation order. -/
def extractAllImages : List MultimodalMessage → List ImageData
  | [] => []
  | m :: rest => m.images ++ extractAllImages rest

/-- The image-validation loop of lines 534-538: the first failing image's
error, or `none` when all images validate. -/
def firstImageError : List ImageData → Option (KLlamaError × String)
  | [] => none
  | img :: rest =>
    let r := validateImageData img
    if r.error ≠ KLlamaError.None then some (r.error, r.errorMessage)
    else firstImageError rest

/-- `KLlama::reset` (KLlama.cpp lines 848-855): only the initialization check
is observable in the embedding (the engine-side sequence-memory clear has no
modelled state). -/
def resetCtx (s : KLlamaState) : KLlamaResultV :=
  if ¬ s.initialized then ⟨KLlamaError.NotInitialized, "KLlama must be initialized before use"⟩
  else okV

/-- `LLAMA_TOKEN_NULL` from llama.h. -/
def llamaTokenNull : ℤ := -1

/-- External collaborators of one generation call: the engine call outcomes,
the sampled token stream, and the token predicates.  `sample i`, `decodeOk i`
are indexed by the loop's token counter. -/
structure GenEnv where
  chainInitOk : Bool
  templateOk : Bool
  bitmapsOk : Bool
  mtokenizeOk : Bool
  evalChunksOk : Bool
  tokenizeOk : Bool
  promptDecodeOk : Bool
  sample : ℕ → ℤ
  isEog : ℤ → Bool
  tokenText : ℤ → String
  decodeOk : ℕ → Bool

/-- Observable outcome of one `generateResponseInternal` call: the returned
`KLlamaResult<std::string>` (error, message, value), the session state after
the call, the arguments of all token-callback invocations in order, and
instrumentation of the per-token loop (whether it was entered and how many
times its body ran). -/
structure GenOutcome where
  result : KLlamaError
  message : String
  value : String
  state : KLlamaState
  emitted : List String
  loopEntered : Bool
  loopIterations : ℕ

/-- An early return of `generateResponseInternal` before the per-token loop:
no token was emitted and the loop never ran. -/
def earlyOut (e : KLlamaError) (msg : String) (s : KLlamaState) : GenOutcome :=
  { result := e, message := msg, value := "", state := s, emitted := [],
    loopEntered := false, loopIterations := 0 }

/-- Lines 553-556: `setGenerationState(Initializing)`, then `currentStats = {}`
(which resets `currentStats.state` back to the zero value `Idle`), then
`currentStats.sampling = samplingParams`. -/
def genPrepare (s : KLlamaState) (samplingParams : SamplingParams) : KLlamaState :=
  { setGenerationState s GenerationState.Initializing with
    stats := { zeroStats with sampling := samplingParams } }

/-- The per-token loop (KLlama.cpp lines 767-821), translated iteration by
iteration.  `fuel` models the remaining budget `maxTokens - tokenCount`, so
fuel 0 is exactly the loop condition `tokenCount < maxTokens` failing, which
exits to line 823 (`Finished`).  Poll sites inside the loop observe the token
at index `pollBase + tokenCount`. -/
def genLoop (env : GenEnv) (cancel : Option (ℕ → Bool)) (pollBase : ℕ) (s : KLlamaState)
    (response : String) (emitted : List String) (tokenCount : ℕ) (iters : ℕ) :
    ℕ → GenOutcome
  | 0 =>
    { result := KLlamaError.None, message := "", value := response,
      state := setGenerationState s GenerationState.Finished,
      emitted := emitted, loopEntered := true, loopIterations := iters }
  | Nat.succ fuel0 =>
    if s.generationState ≠ GenerationState.Generating then
      { result := KLlamaError.None, message := "", value := response,
        state := setGenerationState s GenerationState.Finished,
        emitted := emitted, loopEntered := true, loopIterations := iters }
    else if checkCancel cancel (pollBase + tokenCount) then
      { result := KLlamaError.OperationCancelled, message := "", value := "",
        state := setGenerationState s GenerationState.Cancelled,
        emitted := emitted, loopEntered := true, loopIterations := iters + 1 }
    else
      let id := env.sample tokenCount
      if id = llamaTokenNull then
        { result := KLlamaError.SamplingFailed, message := "Sampler returned null token",
          value := "", state := setGenerationState s GenerationState.Error,
          emitted := emitted, loopEntered := true, loopIterations := iters + 1 }
      else if env.isEog id then
        { result := KLlamaError.None, message := "", value := response,
          state := setGenerationState s GenerationState.Finished,
          emitted := emitted, loopEntered := true, loopIterations := iters + 1 }
      else
        let tokenStr := env.tokenText id
        let response1 := response ++ tokenStr
        let emitted1 := emitted ++ [tokenStr]
        let s1 := { s with stats := { s.stats with tokensGenerated := (tokenCount : ℤ) + 1 } }
        if ¬ env.decodeOk tokenCount then
          { result := KLlamaError.EvaluationFailed, message := "Failed to decode token",
            value := "", state := setGenerationState s1 GenerationState.Error,
            emitted := emitted1, loopEntered := true, loopIterations := iters + 1 }
        else
          genLoop env cancel pollBase s1 response1 emitted1 (tokenCount + 1) (iters + 1) fuel0

/-- Lines 751-765: the cancellation check before generation, the transition
to `Generating`, and the loop entry with
`maxTokens = nPredict > 0 ? nPredict : 4096`. -/
def afterPrompt (env : GenEnv) (cancel : Option (ℕ → Bool)) (pollIdx : ℕ)
    (s : KLlamaState) (samplingParams : SamplingParams) : GenOutcome :=
  if checkCancel cancel pollIdx then
    earlyOut KLlamaError.OperationCancelled "" (setGenerationState s GenerationState.Cancelled)
  else
    let s := setGenerationState s GenerationState.Generating
    let maxTokens : ℕ :=
      if 0 < samplingParams.nPredict then samplingParams.nPredict.toNat else 4096
    genLoop env cancel (pollIdx + 1) s "" [] 0 0 maxTokens

/-- The multimodal branch, lines 613-694: bitmap creation, joint
tokenization, the post-tokenize cancellation poll (site 1), chunk evaluation,
then the loop entry (pre-generation poll at site 2). -/
def genImagePath (env : GenEnv) (cancel : Option (ℕ → Bool)) (s : KLlamaState)
    (samplingParams : SamplingParams) : GenOutcome :=
  let s := setGenerationState s GenerationState.ProcessingImages
  if ¬ env.bitmapsOk then
    earlyOut KLlamaError.ImageProcessingFailed
      "Failed to create bitmap from image data" (setGenerationState s GenerationState.Error)
  else
    let s := setGenerationState s GenerationState.TokenizingPrompt
    if ¬ env.mtokenizeOk then
      earlyOut KLlamaError.TokenizationFailed "Failed to tokenize multimodal input"
        (setGenerationState s GenerationState.Error)
    else if checkCancel cancel 1 then
      earlyOut KLlamaError.OperationCancelled ""
        (setGenerationState s GenerationState.Cancelled)
    else if ¬ env.evalChunksOk then
      earlyOut KLlamaError.EvaluationFailed "Failed to evaluate multimodal prompt"
        (setGenerationState s GenerationState.Error)
    else
      afterPrompt env cancel 2 s samplingParams

/-- The text-only branch, lines 695-749: tokenization and one-batch prompt
evaluation, then the loop entry (pre-generation poll at site 1). -/
def genTextPath (env : GenEnv) (cancel : Option (ℕ → Bool)) (s : KLlamaState)
    (samplingParams : SamplingParams) : GenOutcome :=
  let s := setGenerationState s GenerationState.TokenizingPrompt
  if ¬ env.tokenizeOk then
    earlyOut KLlamaError.TokenizationFailed "Failed to tokenize text prompt: prompt too long"
      (setGenerationState s GenerationState.Error)
  else if ¬ env.promptDecodeOk then
    earlyOut KLlamaError.EvaluationFailed "Failed to evaluate text prompt"
      (setGenerationState s GenerationState.Error)
  else
    afterPrompt env cancel 1 s samplingParams

/-- Lines 546-611 and the image/text dispatch: sampler configuration, state
preparation, context reset, chat-template rendering, the first cancellation
poll, then the image or text evaluation path.  `hasImages` is
`!allImages.empty()`. -/
def genBody (env : GenEnv) (hasImages : Bool) (s : KLlamaState)
    (samplingParams : SamplingParams) (cancel : (Option (ℕ → Bool))) : GenOutcome :=
  let sr := configureSampler env.chainInitOk s samplingParams
  if sr.1.isError then earlyOut sr.1.error sr.1.errorMessage sr.2
  else
    let s := genPrepare sr.2 samplingParams
    let rr := resetCtx s
    if rr.isError then
      earlyOut rr.error rr.errorMessage (setGenerationState s GenerationState.Error)
    else if ¬ env.templateOk then
      earlyOut KLlamaError.TokenizationFailed
        "Failed to apply chat template. Prompt may be too long or template invalid." s
    else if checkCancel cancel 0 then
      earlyOut KLlamaError.OperationCancelled ""
        (setGenerationState s GenerationState.Cancelled)
    else if hasImages then genImagePath env cancel s samplingParams
    else genTextPath env cancel s samplingParams

/-- `KLlama::generateResponseInternal` (KLlama.cpp lines 512-833), translated
step by step: the precondition checks, per-image validation, the
vision-availability check, then the body (`genBody`).  The chat-message role
conversion and prompt rendering have no observable effect in the embedding
beyond the possible template failure (`templateOk`). -/
def generateResponseInternal (env : GenEnv) (s : KLlamaState)
    (conversation : List MultimodalMessage) (samplingParams : SamplingParams)
    (cancel : Option (ℕ → Bool)) : GenOutcome :=
  if ¬ s.initialized then
    earlyOut KLlamaError.NotInitialized "KLlama must be initialized before use" s
  else if s.generationState ≠ GenerationState.Idle then
    earlyOut KLlamaError.InvalidParameters "Generation already in progress" s
  else if conversation.isEmpty then
    earlyOut KLlamaError.InvalidParameters "Conversation cannot be empty" s
  else
    let allImages := extractAllImages conversation
    match firstImageError allImages with
    | some e => earlyOut e.1 e.2 s
    | none =>
      if ¬ allImages.isEmpty ∧ ¬ s.vision then
        earlyOut KLlamaError.InvalidParameters
          "Images provided but multimodal projector not loaded" s
      else genBody env (¬ allImages.isEmpty) s samplingParams cancel

/-- A generation environment in which every engine call succeeds and the very
first sampled token is an end-of-generation marker. -/
def okGenEnv : GenEnv :=
  { chainInitOk := true, templateOk := true, bitmapsOk := true, mtokenizeOk := true,
    evalChunksOk := true, tokenizeOk := true, promptDecodeOk := true,
    sample := fun _ => 2, isEog := fun t => decide (t = 2),
    tokenText := fun _ => "tok", decodeOk := fun _ => true }

/-- A session that completed initialization successfully and is idle. -/
def readyState : KLlamaState :=
  { initialized := true, params := { modelPath := "model.gguf" },
    generationState := GenerationState.Idle, backendInit := true, batchTok := true,
    samplerSt := none, context := true, model := true, vision := false, stats := {} }

/-- A valid one-message text-only conversation. -/
def oneUserMessage : MultimodalMessage :=
  { role := MessageRole.User, content := "Hello", images := [] }

/-- Claim C1: a first `generateResponse` call on a ready session terminates
successfully in the `Finished` state, and the very next call with the same
valid non-empty conversation is rejected by the busy-state precondition check
with `InvalidParameters` ("Generation already in progress"), because the code
never returns the generation state to `Idle` after `Finished`.  This theorem
evaluates both calls at a concrete input and exhibits the divergence from the
spec, which says the state returns to the idle baseline observed by the next
call's precondition check. -/
theorem generate_after_finished_is_rejected :
    (generateResponseInternal okGenEnv readyState [oneUserMessage] {} none).result =
      KLlamaError.None ∧
    (generateResponseInternal okGenEnv readyState [oneUserMessage] {} none).state.generationState =
      GenerationState.Finished ∧
    (generateResponseInternal okGenEnv
        (generateResponseInternal okGenEnv readyState [oneUserMessage] {} none).state
        [oneUserMessage] {} none).result = KLlamaError.InvalidParameters ∧
    (generateResponseInternal okGenEnv
        (generateResponseInternal okGenEnv readyState [oneUserMessage] {} none).state
        [oneUserMessage] {} none).message = "Generation already in progress" := by
  refine ⟨by decide, by decide, by decide, by decide⟩

/-- Claim C6: on any initialized idle session, with any valid text-only
one-message conversation, validating sampling parameters and a working
engine, a cancellation token that is already set when `generateResponse` is
called makes the call return `OperationCancelled`, leave the generation state
`Cancelled`, and never invoke the token callback. -/
theorem generate_pre_cancelled (env : GenEnv) (s : KLlamaState) (msg : MultimodalMessage)
    (sp : SamplingParams) (hinit : s.initialized = true)
    (hidle : s.generationState = GenerationState.Idle) (himg : msg.images = [])
    (hv : sp.validate = okV) (hchain : env.chainInitOk = true)
    (htmpl : env.templateOk = true) :
    (generateResponseInternal env s [msg] sp (some (fun _ => true))).result =
      KLlamaError.OperationCancelled ∧
    (generateResponseInternal env s [msg] sp (some (fun _ => true))).state.generationState =
      GenerationState.Cancelled ∧
    (generateResponseInternal env s [msg] sp (some (fun _ => true))).emitted = [] := by
  have hok : (okV).isError = false := rfl
  unfold generateResponseInternal genBody
  simp only [hinit, hidle, extractAllImages, himg, firstImageError, List.isEmpty_cons,
    List.append_nil, configureSampler, hv, hok, hchain]
  simp [resetCtx, hinit, htmpl, checkCancel, earlyOut, genPrepare, setGenerationState, okV,
    KLlamaResultV.isError]

/-- Claim C6 witness: the concrete ready session and conversation with an
always-set token. -/
theorem generate_pre_cancelled_witness :
    (readyState.initialized = true ∧
      readyState.generationState = GenerationState.Idle ∧
      oneUserMessage.images = [] ∧ ({} : SamplingParams).validate = okV ∧
      okGenEnv.chainInitOk = true ∧ okGenEnv.templateOk = true) ∧
    ((generateResponseInternal okGenEnv readyState [oneUserMessage] {}
        (some (fun _ => true))).result = KLlamaError.OperationCancelled ∧
     (generateResponseInternal okGenEnv readyState [oneUserMessage] {}
        (some (fun _ => true))).state.generationState = GenerationState.Cancelled ∧
     (generateResponseInternal okGenEnv readyState [oneUserMessage] {}
        (some (fun _ => true))).emitted = []) :=
  ⟨⟨rfl, rfl, rfl, by decide, rfl, rfl⟩,
    generate_pre_cancelled okGenEnv readyState oneUserMessage {} rfl rfl rfl
      (by decide) rfl rfl⟩

/-- The loop budget of one call: `nPredict` when positive, else the fixed
fallback ceiling 4096 (line 765). -/
def genBound (sp : SamplingParams) : ℕ :=
  if 0 < sp.nPredict then sp.nPredict.toNat else 4096

lemma genLoop_iterations_le (env : GenEnv) (cancel : Option (ℕ → Bool)) (pollBase : ℕ) :
    ∀ (fuel : ℕ) (s : KLlamaState) (response : String) (emitted : List String)
      (tokenCount iters : ℕ),
      (genLoop env cancel pollBase s response emitted tokenCount iters fuel).loopIterations ≤
        iters + fuel := by
  intro fuel
  induction fuel with
  | zero => intro s response emitted tokenCount iters; simp [genLoop]
  | succ fuel0 ih =>
    intro s response emitted tokenCount iters
    simp only [genLoop]
    split_ifs <;>
      first
      | exact le_trans (ih _ _ _ _ _) (by omega)
      | (simp only []
         (try simp)
         (try omega))

lemma genLoop_emitted_le (env : GenEnv) (cancel : Option (ℕ → Bool)) (pollBase : ℕ) :
    ∀ (fuel : ℕ) (s : KLlamaState) (response : String) (emitted : List String)
      (tokenCount iters : ℕ),
      (genLoop env cancel pollBase s response emitted tokenCount iters fuel).emitted.length ≤
        emitted.length + fuel := by
  intro fuel
  induction fuel with
  | zero => intro s response emitted tokenCount iters; simp [genLoop]
  | succ fuel0 ih =>
    intro s response emitted tokenCount iters
    simp only [genLoop]
    split_ifs <;>
      first
      | (refine le_trans (ih _ _ _ _ _) ?_
         simp
         (try omega))
      | (simp only []
         (try simp)
         (try omega))

lemma genLoop_tokens_le (env : GenEnv) (cancel : Option (ℕ → Bool)) (pollBase : ℕ) :
    ∀ (fuel : ℕ) (s : KLlamaState) (response : String) (emitted : List String)
      (tokenCount iters : ℕ),
      s.stats.tokensGenerated ≤ (tokenCount : ℤ) →
      (genLoop env cancel pollBase s response emitted tokenCount
          iters fuel).state.stats.tokensGenerated ≤ (tokenCount : ℤ) + fuel := by
  intro fuel
  induction fuel with
  | zero =>
    intro s response emitted tokenCount iters hs
    simp [genLoop, setGenerationState]
    try omega
  | succ fuel0 ih =>
    intro s response emitted tokenCount iters hs
    simp only [genLoop]
    split_ifs <;>
      first
      | (refine le_trans (ih _ _ _ _ _ (by simp)) ?_
         omega)
      | (simp [setGenerationState]
         try omega)

lemma afterPrompt_bounds (env : GenEnv) (cancel : Option (ℕ → Bool)) (pollIdx : ℕ)
    (s : KLlamaState) (sp : SamplingParams) (hz : s.stats.tokensGenerated = 0) :
    (afterPrompt env cancel pollIdx s sp).loopIterations ≤ genBound sp ∧
    (afterPrompt env cancel pollIdx s sp).emitted.length ≤ genBound sp ∧
    (afterPrompt env cancel pollIdx s sp).state.stats.tokensGenerated ≤ (genBound sp : ℤ) := by
  have hfold : (if 0 < sp.nPredict then sp.nPredict.toNat else 4096) = genBound sp := rfl
  unfold afterPrompt
  rw [hfold]
  split_ifs with hc
  · refine ⟨by simp [earlyOut], by simp [earlyOut], ?_⟩
    simp [earlyOut, setGenerationState, hz]
    try omega
  · refine ⟨?_, ?_, ?_⟩
    · exact le_trans
        (genLoop_iterations_le env cancel (pollIdx + 1) (genBound sp) _ "" [] 0 0) (by omega)
    · exact le_trans
        (genLoop_emitted_le env cancel (pollIdx + 1) (genBound sp) _ "" [] 0 0) (by simp)
    · exact le_trans
        (genLoop_tokens_le env cancel (pollIdx + 1) (genBound sp)
          (setGenerationState s GenerationState.Generating) "" [] 0 0
          (by simp [setGenerationState, hz]))
        (by omega)

/-- The outcome respects the loop budget `b`: bounded iteration count and
callback count, and a bounded final token statistic whenever the loop ran. -/
def boundedOutcome (o : GenOutcome) (b : ℕ) : Prop :=
  o.loopIterations ≤ b ∧ o.emitted.length ≤ b ∧
  (o.loopEntered = true → o.state.stats.tokensGenerated ≤ (b : ℤ))

lemma earlyOut_bounded (e : KLlamaError) (m : String) (st : KLlamaState) (b : ℕ) :
    boundedOutcome (earlyOut e m st) b := by
  simp [boundedOutcome, earlyOut]

lemma afterPrompt_bounded (env : GenEnv) (cancel : Option (ℕ → Bool)) (k : ℕ)
    (s : KLlamaState) (sp : SamplingParams) (hz : s.stats.tokensGenerated = 0) :
    boundedOutcome (afterPrompt env cancel k s sp) (genBound sp) := by
  obtain ⟨h1, h2, h3⟩ := afterPrompt_bounds env cancel k s sp hz
  exact ⟨h1, h2, fun _ => h3⟩

lemma genTextPath_bounded (env : GenEnv) (cancel : Option (ℕ → Bool)) (s : KLlamaState)
    (sp : SamplingParams) (hz : s.stats.tokensGenerated = 0) :
    boundedOutcome (genTextPath env cancel s sp) (genBound sp) := by
  simp only [genTextPath]
  split_ifs <;>
    first
    | exact earlyOut_bounded _ _ _ _
    | exact afterPrompt_bounded _ _ _ _ _ (by simp [setGenerationState, hz])

lemma genImagePath_bounded (env : GenEnv) (cancel : Option (ℕ → Bool)) (s : KLlamaState)
    (sp : SamplingParams) (hz : s.stats.tokensGenerated = 0) :
    boundedOutcome (genImagePath env cancel s sp) (genBound sp) := by
  simp only [genImagePath]
  split_ifs <;>
    first
    | exact earlyOut_bounded _ _ _ _
    | exact afterPrompt_bounded _ _ _ _ _ (by simp [setGenerationState, hz])

lemma genBody_bounded (env : GenEnv) (hasImages : Bool) (s : KLlamaState)
    (sp : SamplingParams) (cancel : Option (ℕ → Bool)) :
    boundedOutcome (genBody env hasImages s sp cancel) (genBound sp) := by
  simp only [genBody]
  split_ifs <;>
    first
    | exact earlyOut_bounded _ _ _ _
    | exact genImagePath_bounded _ _ _ _ (by simp [genPrepare, setGenerationState, zeroStats])
    | exact genTextPath_bounded _ _ _ _ (by simp [genPrepare, setGenerationState, zeroStats])

/-- Claim C7: every `generateResponse` call runs its per-token loop at most
`nPredict` times when `nPredict > 0` and at most 4096 times otherwise (the
fixed fallback ceiling for unlimited prediction) — the loop always
terminates, at most that many tokens are delivered to the token callback, and
whenever the loop is entered the final `tokensGenerated` statistic never
exceeds the bound. -/
theorem generation_loop_bounded (env : GenEnv) (s : KLlamaState)
    (conversation : List MultimodalMessage) (sp : SamplingParams)
    (cancel : Option (ℕ → Bool)) :
    (generateResponseInternal env s conversation sp cancel).loopIterations ≤ genBound sp ∧
    (generateResponseInternal env s conversation sp cancel).emitted.length ≤ genBound sp ∧
    ((generateResponseInternal env s conversation sp cancel).loopEntered = true →
      (generateResponseInternal env s conversation sp cancel).state.stats.tokensGenerated ≤
        (genBound sp : ℤ)) := by
  have h : boundedOutcome (generateResponseInternal env s conversation sp cancel)
      (genBound sp) := by
    simp only [generateResponseInternal]
    split_ifs <;>
      first
      | exact earlyOut_bounded _ _ _ _
      | (split <;>
          first
          | exact earlyOut_bounded _ _ _ _
          | exact genBody_bounded _ _ _ _ _)
  exact ⟨h.1, h.2.1, h.2.2⟩

/-- Claim C7 witness: a run on the ready session with default parameters
(`nPredict = -1`, so the fallback ceiling 4096 applies) that enters the loop. -/
theorem generation_loop_bounded_witness :
    (generateResponseInternal okGenEnv readyState [oneUserMessage] {} none).loopEntered = true ∧
    (generateResponseInternal okGenEnv readyState [oneUserMessage] {} none).loopIterations ≤
      genBound {} ∧
    (generateResponseInternal okGenEnv readyState [oneUserMessage]
        {} none).state.stats.tokensGenerated ≤ (genBound {} : ℤ) :=
  ⟨by decide,
    (generation_loop_bounded okGenEnv readyState [oneUserMessage] {} none).1,
    (generation_loop_bounded okGenEnv readyState [oneUserMessage] {} none).2.2 (by decide)⟩

end KLlamaModel
